import Mathlib

/-!
Verification of the Power BI tool pipeline (`app/tools_powerbi.py`).

The Python module is shallowly embedded: JSON values become the inductive
`JValue`; dictionary access, truthiness, indexing, slicing and string
conversion are modelled by executable functions mirroring CPython semantics;
fallible operations (attribute errors on non-dict values, HTTP failures,
validation failures) return `Except PyErr`.  Network interaction is modelled
by passing the remote endpoints' behaviour as explicit parameters: a token
outcome for the OAuth endpoint and an `HttpResponse` (status, body text,
parsed JSON) for the data endpoints.
-/

/-- JSON values, as produced by `resp.json()` in the Python source.  Object
fields keep insertion order, matching CPython dict ordering. -/
inductive JValue where
  | null : JValue
  | bool : Bool → JValue
  | num : Int → JValue
  | str : String → JValue
  | arr : List JValue → JValue
  | obj : List (String × JValue) → JValue
deriving Repr

/-- Python exceptions that the embedded code can raise. -/
inductive PyErr where
  | attributeError : String → PyErr
  | typeError : String → PyErr
  | keyError : String → PyErr
  | indexError : String → PyErr
  | valueError : String → PyErr
  | httpError : Nat → PyErr
  | requestException : String → PyErr
deriving Repr, DecidableEq

/-- Python type name of a JSON value, used in error messages. -/
def typeName : JValue → String
  | .null => "NoneType"
  | .bool _ => "bool"
  | .num _ => "int"
  | .str _ => "str"
  | .arr _ => "list"
  | .obj _ => "dict"

/-- Python truthiness (`if x:`) of a JSON value. -/
def JValue.truthy : JValue → Bool
  | .null => false
  | .bool b => b
  | .num n => n ≠ 0
  | .str s => s ≠ ""
  | .arr l => !l.isEmpty
  | .obj l => !l.isEmpty

/-- `isinstance(v, dict)`. -/
def JValue.isDict : JValue → Bool
  | .obj _ => true
  | _ => false

/-- `isinstance(v, list)`. -/
def JValue.isList : JValue → Bool
  | .arr _ => true
  | _ => false

/-- Lookup in a Python dict (first matching key; real dicts have no
duplicates). -/
def objLookup : List (String × JValue) → String → Option JValue
  | [], _ => none
  | (k, v) :: rest, key => if k = key then some v else objLookup rest key

/-- `v.get(k)`: `AttributeError` unless `v` is a dict. -/
def dictGet (v : JValue) (k : String) : Except PyErr (Option JValue) :=
  match v with
  | .obj l => .ok (objLookup l k)
  | _ => .error (.attributeError (typeName v ++ " object has no attribute get"))

/-- `v.get(k, d)`. -/
def dictGetD (v : JValue) (k : String) (d : JValue) : Except PyErr JValue :=
  match dictGet v k with
  | .error e => .error e
  | .ok o => .ok (o.getD d)

/-- Total companion of `dictGetD` used in theorem statements: the value
`v.get(k, d)` returns when `v` is a dict (and `d` otherwise). -/
def getDefault (v : JValue) (k : String) (d : JValue) : JValue :=
  match v with
  | .obj l => (objLookup l k).getD d
  | _ => d

/-- `v[0]`: list head, first character of a string, key lookup in a dict
(our keys are strings, so an integer subscript misses), `TypeError`
otherwise. -/
def pyIndex0 (v : JValue) : Except PyErr JValue :=
  match v with
  | .arr (x :: _) => .ok x
  | .arr [] => .error (.indexError "list index out of range")
  | .str s =>
    match s.data with
    | c :: _ => .ok (.str (String.mk [c]))
    | [] => .error (.indexError "string index out of range")
  | .obj _ => .error (.keyError "0")
  | _ => .error (.typeError (typeName v ++ " object is not subscriptable"))

/-- `v[:n]` as the list of elements iterated afterwards: lists slice to a
prefix, strings to their first characters, anything else raises
`TypeError`. -/
def pySlice (v : JValue) (n : Nat) : Except PyErr (List JValue) :=
  match v with
  | .arr l => .ok (l.take n)
  | .str s => .ok ((s.data.take n).map (fun c => JValue.str (String.mk [c])))
  | _ => .error (.typeError (typeName v ++ " object is not subscriptable"))

/-- Characters stripped by Python `str.strip()` (ASCII whitespace). -/
def isPySpace (c : Char) : Bool :=
  c = ' ' || c = '\t' || c = '\n' || c = '\r' || c = '\x0b' || c = '\x0c'

/-- Python `s.strip()`. -/
def pyStrip (s : String) : String :=
  String.mk (((s.data.dropWhile isPySpace).reverse.dropWhile isPySpace).reverse)

/-- Python `s.upper()` (per-character uppercasing; our inputs are ASCII). -/
def pyUpper (s : String) : String :=
  String.mk (s.data.map Char.toUpper)

/-- Python `s.startswith(pre)`. -/
def pyStartswith (s pre : String) : Bool :=
  pre.data.isPrefixOf s.data

/-- Python `s[:n]`. -/
def pyTake (s : String) (n : Nat) : String :=
  String.mk (s.data.take n)

/-- Sequencing of a fallible map over a list, as a Python `for` loop or
comprehension that stops at the first raised exception. -/
def exceptMap (f : α → Except PyErr β) : List α → Except PyErr (List β)
  | [] => .ok []
  | x :: xs =>
    match f x with
    | .error e => .error e
    | .ok y =>
      match exceptMap f xs with
      | .error e => .error e
      | .ok ys => .ok (y :: ys)

/-- Hexadecimal digit character (lowercase, as CPython emits). -/
def hexDigit (n : Nat) : Char :=
  if n < 10 then Char.ofNat (48 + n) else Char.ofNat (87 + n)

/-- Four-digit hexadecimal rendering for a JSON escape. -/
def hex4 (n : Nat) : String :=
  String.mk [hexDigit (n / 4096 % 16), hexDigit (n / 256 % 16),
    hexDigit (n / 16 % 16), hexDigit (n % 16)]

/-- Two-digit hexadecimal rendering for a Python string-repr escape. -/
def hex2 (n : Nat) : String :=
  String.mk [hexDigit (n / 16 % 16), hexDigit (n % 16)]

/-- Escaping of one character inside a JSON string literal, with CPython's
default `ensure_ascii=True` behaviour. -/
def jsonEscapeChar (c : Char) : String :=
  if c = '"' then "\\\""
  else if c = '\\' then "\\\\"
  else if c = '\n' then "\\n"
  else if c = '\r' then "\\r"
  else if c = '\t' then "\\t"
  else if c = '\x08' then "\\b"
  else if c = '\x0c' then "\\f"
  else if c.toNat < 32 || c.toNat > 126 then
    if c.toNat < 65536 then "\\u" ++ hex4 c.toNat
    else
      let n := c.toNat - 65536
      "\\u" ++ hex4 (55296 + n / 1024) ++ "\\u" ++ hex4 (56320 + n % 1024)
  else String.mk [c]

/-- A JSON string literal. -/
def jsonQuote (s : String) : String :=
  "\"" ++ String.join (s.data.map jsonEscapeChar) ++ "\""

/-- `n` spaces of indentation. -/
def spaces (n : Nat) : String :=
  String.mk (List.replicate n ' ')

mutual
/-- `json.dumps(v, indent=2)` rendered at indentation level `ind`. -/
def jsonDumpsAt : Nat → JValue → String
  | _, .null => "null"
  | _, .bool true => "true"
  | _, .bool false => "false"
  | _, .num n => toString n
  | _, .str s => jsonQuote s
  | _, .arr [] => "[]"
  | ind, .arr (x :: xs) =>
    "[\n" ++ jsonItems (ind + 2) x xs ++ "\n" ++ spaces ind ++ "]"
  | _, .obj [] => "\x7b\x7d"
  | ind, .obj (p :: ps) =>
    "\x7b\n" ++ jsonFields (ind + 2) p ps ++ "\n" ++ spaces ind ++ "\x7d"
termination_by _ v => sizeOf v
decreasing_by all_goals simp_wf

/-- Comma-and-newline separated array items at indentation `ind`. -/
def jsonItems : Nat → JValue → List JValue → String
  | ind, x, [] => spaces ind ++ jsonDumpsAt ind x
  | ind, x, y :: ys => spaces ind ++ jsonDumpsAt ind x ++ ",\n" ++ jsonItems ind y ys
termination_by _ x ys => 1 + sizeOf x + sizeOf ys
decreasing_by all_goals simp_wf <;> omega

/-- Comma-and-newline separated object fields at indentation `ind`. -/
def jsonFields : Nat → (String × JValue) → List (String × JValue) → String
  | ind, (k, v), [] => spaces ind ++ jsonQuote k ++ ": " ++ jsonDumpsAt ind v
  | ind, (k, v), q :: qs =>
    spaces ind ++ jsonQuote k ++ ": " ++ jsonDumpsAt ind v ++ ",\n" ++ jsonFields ind q qs
termination_by _ p ps => 1 + sizeOf p + sizeOf ps
decreasing_by all_goals simp_wf <;> omega
end

/-- `json.dumps(v, indent=2)`. -/
def jsonDumps (v : JValue) : String :=
  jsonDumpsAt 0 v

/-- Escaping of one character inside a Python string repr quoted by `q`. -/
def reprEscapeChar (q : Char) (c : Char) : String :=
  if c = '\\' then "\\\\"
  else if c = q then String.mk ['\\', q]
  else if c = '\n' then "\\n"
  else if c = '\r' then "\\r"
  else if c = '\t' then "\\t"
  else if c.toNat < 32 || c.toNat = 127 then "\\x" ++ hex2 c.toNat
  else String.mk [c]

/-- Python `repr` of a string: single-quoted unless the string contains a
single quote and no double quote. -/
def pyReprStr (s : String) : String :=
  let sq := Char.ofNat 39
  let q := if s.data.contains sq && !(s.data.contains '"') then '"' else sq
  String.mk [q] ++ String.join (s.data.map (reprEscapeChar q)) ++ String.mk [q]

mutual
/-- Python `repr` of a JSON value. -/
def pyRepr : JValue → String
  | .null => "None"
  | .bool true => "True"
  | .bool false => "False"
  | .num n => toString n
  | .str s => pyReprStr s
  | .arr l => "[" ++ pyReprItems l ++ "]"
  | .obj l => "\x7b" ++ pyReprFields l ++ "\x7d"
termination_by v => sizeOf v
decreasing_by all_goals simp_wf

/-- Comma-separated list items of a Python repr. -/
def pyReprItems : List JValue → String
  | [] => ""
  | [x] => pyRepr x
  | x :: y :: ys => pyRepr x ++ ", " ++ pyReprItems (y :: ys)
termination_by l => sizeOf l
decreasing_by all_goals simp_wf <;> omega

/-- Comma-separated dict entries of a Python repr. -/
def pyReprFields : List (String × JValue) → String
  | [] => ""
  | [(k, v)] => pyReprStr k ++ ": " ++ pyRepr v
  | (k, v) :: q :: qs => pyReprStr k ++ ": " ++ pyRepr v ++ ", " ++ pyReprFields (q :: qs)
termination_by l => sizeOf l
decreasing_by all_goals simp_wf <;> omega
end

/-- The conversion `csv.writer` applies to each cell: `None` becomes the
empty string, strings pass through, anything else is rendered by `str()`
(which for these values coincides with `repr`). -/
def csvFieldStr : JValue → String
  | .null => ""
  | .str s => s
  | v => pyRepr v

/-- Whether `csv.writer` (QUOTE_MINIMAL dialect) must quote a field. -/
def csvNeedsQuote (s : String) : Bool :=
  s.data.any (fun c => c = ',' || c = '"' || c = '\n' || c = '\r')

/-- Field quoting of the default csv dialect: wrap in double quotes, doubling
embedded double quotes, only when needed. -/
def csvQuote (s : String) : String :=
  if csvNeedsQuote s then
    "\"" ++ String.join (s.data.map (fun c => if c = '"' then "\"\"" else String.mk [c])) ++ "\""
  else s

/-- One `writer.writerow(fields)` call: comma-joined minimally-quoted fields
plus CRLF; a row consisting of a single empty field is written as a quoted
empty field so it stays distinguishable from an empty row. -/
def csvRow (fields : List String) : String :=
  match fields with
  | [f] => (if f = "" then "\"\"" else csvQuote f) ++ "\r\n"
  | _ => String.intercalate "," (fields.map csvQuote) ++ "\r\n"

/-- `output.getvalue()` after a sequence of `writerow` calls. -/
def csvGetValue : List (List String) → String
  | [] => ""
  | r :: rs => csvRow r ++ csvGetValue rs

/-- `row.get(cn, "")` inside the preview loops: a dict row looks the column
name up (string keys only, so a non-string name misses and yields the
default, and an unhashable name raises `TypeError`); any non-dict row —
including a positional list row — raises `AttributeError`. -/
def rowCell (row : JValue) (cn : JValue) : Except PyErr JValue :=
  match row with
  | .obj l =>
    match cn with
    | .str s => .ok ((objLookup l s).getD (.str ""))
    | .arr _ => .error (.typeError "unhashable type list")
    | .obj _ => .error (.typeError "unhashable type dict")
    | _ => .ok (.str "")
  | _ => .error (.attributeError (typeName row ++ " object has no attribute get"))

/-- Whether a value can be used as a dict key (`row.get(cn, ...)`). -/
def JValue.hashable : JValue → Bool
  | .arr _ => false
  | .obj _ => false
  | _ => true

/-- Total companion of `rowCell` on dict rows with hashable column names:
the rendered cell value, with missing keys defaulting to the empty
string. -/
def cellValue (l : List (String × JValue)) (cn : JValue) : JValue :=
  match cn with
  | .str s => (objLookup l s).getD (.str "")
  | _ => .str ""

/-- Decidable equality of `Except` results, for evaluating concrete runs. -/
instance {ε α : Type} [DecidableEq ε] [DecidableEq α] : DecidableEq (Except ε α) :=
  fun a b =>
    match a, b with
    | .ok x, .ok y =>
      if h : x = y then .isTrue (by rw [h]) else .isFalse (by simp [h])
    | .error x, .error y =>
      if h : x = y then .isTrue (by rw [h]) else .isFalse (by simp [h])
    | .ok _, .error _ => .isFalse (by simp)
    | .error _, .ok _ => .isFalse (by simp)

/-- The five return sites of `_first_table_to_csv`, before final string
assembly: the four `json.dumps(..., indent=2)` fallbacks and the CSV path
carrying the rows passed to `writer.writerow` (header first, then data
rows, every cell already converted by `str()`). -/
inductive CsvOut where
  | jsonWhole : String → CsvOut
  | jsonErrors : String → CsvOut
  | jsonFirst : String → CsvOut
  | jsonTable : String → CsvOut
  | csv : List String → List (List String) → CsvOut
deriving Repr, DecidableEq

/-- The second half of `_first_table_to_csv`, rendering `table = tables[0]`:
`columns = table.get("columns")` and `rows = table.get("rows", [])`; a
list-typed `columns` renders CSV with descriptor names; otherwise truthy
rows whose first element is a dict render CSV with the first row's keys;
otherwise the raw table is dumped. -/
def tableToCsv (table : JValue) (max_rows : Nat) : Except PyErr CsvOut :=
  match dictGet table "columns" with
  | .error e => .error e
  | .ok columnsOpt =>
    match dictGetD table "rows" (.arr []) with
    | .error e => .error e
    | .ok rows =>
      match columnsOpt with
      | some (.arr cols) =>
        match exceptMap (fun c => dictGetD c "name" (.str "")) cols with
        | .error e => .error e
        | .ok colNames =>
          match pySlice rows max_rows with
          | .error e => .error e
          | .ok sliced =>
            match exceptMap
                (fun row => exceptMap (fun cn => rowCell row cn) colNames)
                sliced with
            | .error e => .error e
            | .ok cells =>
              .ok (.csv (colNames.map csvFieldStr)
                (cells.map (fun cs => cs.map csvFieldStr)))
      | _ =>
        if rows.truthy = true then
          match pyIndex0 rows with
          | .error e => .error e
          | .ok r0 =>
            match r0 with
            | .obj r0f =>
              match pySlice rows max_rows with
              | .error e => .error e
              | .ok sliced =>
                match exceptMap
                    (fun row =>
                      exceptMap (fun cn => rowCell row (JValue.str cn))
                        (r0f.map (fun p => p.1)))
                    sliced with
                | .error e => .error e
                | .ok cells =>
                  .ok (.csv (r0f.map (fun p => p.1))
                    (cells.map (fun cs => cs.map csvFieldStr)))
            | _ => .ok (.jsonTable (jsonDumps table))
        else .ok (.jsonTable (jsonDumps table))

/-- `_first_table_to_csv(result, max_rows)` up to the choice of `table =
tables[0]`: `results = result.get("results", [])`; empty/falsy results dump
the whole result; `first = results[0]`; a truthy `first.get("errors")`
dumps the error payload; falsy `first.get("tables", [])` dumps the first
statement; then the first table is rendered by `tableToCsv`. -/
def _first_table_to_csv_core (result : JValue) (max_rows : Nat) : Except PyErr CsvOut :=
  match dictGetD result "results" (.arr []) with
  | .error e => .error e
  | .ok results =>
    if results.truthy = false then .ok (.jsonWhole (jsonDumps result)) else
    match pyIndex0 results with
    | .error e => .error e
    | .ok first =>
      match dictGet first "errors" with
      | .error e => .error e
      | .ok errsOpt =>
        if (errsOpt.getD .null).truthy = true then
          .ok (.jsonErrors (jsonDumps (errsOpt.getD .null)))
        else
          match dictGetD first "tables" (.arr []) with
          | .error e => .error e
          | .ok tables =>
            if tables.truthy = false then .ok (.jsonFirst (jsonDumps first)) else
            match pyIndex0 tables with
            | .error e => .error e
            | .ok table => tableToCsv table max_rows

/-- `_first_table_to_csv(result, max_rows)`: the JSON fallbacks are returned
as-is; the CSV path returns `output.getvalue().strip()`. -/
def _first_table_to_csv (result : JValue) (max_rows : Nat := 50) : Except PyErr String :=
  match _first_table_to_csv_core result max_rows with
  | .error e => .error e
  | .ok (.jsonWhole s) => .ok s
  | .ok (.jsonErrors s) => .ok s
  | .ok (.jsonFirst s) => .ok s
  | .ok (.jsonTable s) => .ok s
  | .ok (.csv header dataRows) => .ok (pyStrip (csvGetValue (header :: dataRows)))

/-- An HTTP response as seen by the Python code: status code, body text, and
the JSON parse of the body (`r.json()`). -/
structure HttpResponse where
  status : Nat
  text : String
  json : JValue

/-- tenacity's `wait_exponential(multiplier, min, max)` evaluated after the
failed attempt numbered `attempt_number`: `multiplier * 2 ** attempt_number`
clamped below by the floor and above by the cap. -/
def wait_exponential (multiplier floor cap attempt_number : Nat) : Nat :=
  Nat.max floor (Nat.min (multiplier * 2 ^ attempt_number) cap)

/-- One body execution of `_get_token` given the token endpoint's behaviour
for that attempt: a transport error propagates; `raise_for_status()` raises
for 4xx/5xx; otherwise `resp.json()["access_token"]` is returned (a missing
key or a non-object body raises, and tenacity would retry that too). -/
def tokenAttempt (response : Except PyErr HttpResponse) : Except PyErr JValue :=
  match response with
  | .error e => .error e
  | .ok r =>
    if 400 ≤ r.status ∧ r.status < 600 then .error (.httpError r.status)
    else
      match r.json with
      | .obj l =>
        match objLookup l "access_token" with
        | some v => .ok v
        | none => .error (.keyError "access_token")
      | v => .error (.typeError (typeName v ++ " indices must be integers"))

/-- tenacity's retry loop with `stop_after_attempt`: run attempt `k`; on
failure, if `remaining` further attempts are allowed, sleep
`wait_exponential(1, 1, 8, k)` and recurse, else surface the last error.
Returns (outcome, number of the last attempt made, sleeps performed). -/
def retryGo (attempt : Nat → Except PyErr JValue) :
    Nat → Nat → Except PyErr JValue × Nat × List Nat
  | k, remaining =>
    match attempt k with
    | .ok v => (.ok v, k, [])
    | .error e =>
      match remaining with
      | 0 => (.error e, k, [])
      | r + 1 =>
        let rest := retryGo attempt (k + 1) r
        (rest.1, rest.2.1, wait_exponential 1 1 8 k :: rest.2.2)

/-- `_get_token` under `@retry(stop=stop_after_attempt(3),
wait=wait_exponential(multiplier=1, min=1, max=8))`: attempts are numbered
from 1 and at most 2 retries follow the first attempt.  `responses n` is
the token endpoint's behaviour on the n-th POST. -/
def _get_token (responses : Nat → Except PyErr HttpResponse) :
    Except PyErr JValue × Nat × List Nat :=
  retryGo (fun n => tokenAttempt (responses n)) 1 2

/-- `generate_dax_from_nl`, as a function of the model response's `content`
attribute (`None` when the model returns no content): `dax = (resp.content
or "").strip()`; raise `ValueError` unless `dax.upper()` starts with
`EVALUATE`; otherwise return the dict `{"dax": dax}`. -/
def generate_dax_from_nl (content : Option String) :
    Except PyErr (List (String × String)) :=
  let dax := pyStrip (content.getD "")
  if pyStartswith (pyUpper dax) "EVALUATE" then .ok [("dax", dax)]
  else .error (.valueError "Generated DAX does not start with EVALUATE.")

/-- `API_BASE` from the source. -/
def API_BASE : String := "https://api.powerbi.com/v1.0/myorg"

/-- Python `a or b` over optional strings: the left operand unless it is
`None` or empty (falsy). -/
def pyOrStr : Option String → Option String → Option String
  | some s, b => if s = "" then b else some s
  | none, b => b

/-- Truthiness of an optional string (`if not ws:`). -/
def optTruthy : Option String → Bool
  | some s => s ≠ ""
  | none => false

/-- A network request issued by an operation.  `tokenPost` stands for the
token-endpoint POST(s) performed by `_get_token`. -/
inductive HttpCall where
  | tokenPost : HttpCall
  | httpGet : String → HttpCall
  | httpPost : String → JValue → HttpCall

/-- The dict returned by a successful `execute_dax_query`. -/
structure ExecResult where
  raw : JValue
  csv_preview : String

/-- Observable outcome of `execute_dax_query`: its result or raised error,
the network requests attempted, and the error metadata recorded on the
trace span. -/
structure ExecOutcome where
  result : Except PyErr ExecResult
  calls : List HttpCall
  diagnostics : List (String × String)

/-- `execute_dax_query(dax, workspace_id, dataset_id)` with the module
configuration (`WORKSPACE_ID`, `DATASET_ID`) and the network behaviour
(token outcome, POST response per URL) passed explicitly.  Follows the
source: fall back to configured defaults; `ValueError` when the workspace
or the dataset reference is falsy, before any network call; `_get_token`;
POST the single-query payload with null-inclusive serialization;
`raise_for_status()` with the first 4000 characters of the body recorded as
`response_snippet` on failure; otherwise build the 50-row CSV preview of
the parsed body. -/
def execute_dax_query (WORKSPACE_ID DATASET_ID : Option String)
    (tokenOutcome : Except PyErr String) (post : String → HttpResponse)
    (dax : String) (workspace_id : Option String := none)
    (dataset_id : Option String := none) : ExecOutcome :=
  let ws := pyOrStr workspace_id WORKSPACE_ID
  let ds := pyOrStr dataset_id DATASET_ID
  if optTruthy ws = false then
    { result := .error (.valueError "workspace_id is required (PBI_WORKSPACE_ID)"),
      calls := [], diagnostics := [("error", "workspace_id missing")] }
  else if optTruthy ds = false then
    { result := .error (.valueError "dataset_id is required (PBI_DATASET_ID or pass explicitly)"),
      calls := [], diagnostics := [("error", "dataset_id missing")] }
  else
    match tokenOutcome with
    | .error e => { result := .error e, calls := [.tokenPost], diagnostics := [] }
    | .ok _ =>
      let url := API_BASE ++ "/groups/" ++ ws.getD "" ++ "/datasets/" ++ ds.getD ""
        ++ "/executeQueries"
      let payload : JValue := .obj [("queries", .arr [.obj [("query", .str dax)]]),
        ("serializerSettings", .obj [("includeNulls", .bool true)])]
      let r := post url
      let calls := [HttpCall.tokenPost, .httpPost url payload]
      if 400 ≤ r.status ∧ r.status < 600 then
        let err_text := pyTake r.text 4000
        { result := .error (.httpError r.status), calls := calls,
          diagnostics := [("error", "http_error"), ("response_snippet", err_text)] }
      else
        match _first_table_to_csv r.json 50 with
        | .error e => { result := .error e, calls := calls, diagnostics := [] }
        | .ok preview =>
          { result := .ok { raw := r.json, csv_preview := preview },
            calls := calls, diagnostics := [] }

/-- Python iteration (`for d in data`). -/
def pyIter (v : JValue) : Except PyErr (List JValue) :=
  match v with
  | .arr l => .ok l
  | .str s => .ok (s.data.map (fun c => JValue.str (String.mk [c])))
  | .obj l => .ok (l.map (fun p => JValue.str p.1))
  | _ => .error (.typeError (typeName v ++ " object is not iterable"))

/-- The four-field record `list_reports` builds from one upstream item (a
dict), with absent keys giving `None`. -/
def reportSummary (l : List (String × JValue)) : JValue :=
  .obj [("id", (objLookup l "id").getD .null),
    ("name", (objLookup l "name").getD .null),
    ("datasetId", (objLookup l "datasetId").getD .null),
    ("webUrl", (objLookup l "webUrl").getD .null)]

/-- `{"id": d.get("id"), "name": d.get("name"), "datasetId":
d.get("datasetId"), "webUrl": d.get("webUrl")}` for one iterated item. -/
def projectReport (d : JValue) : Except PyErr JValue :=
  match d with
  | .obj l => .ok (reportSummary l)
  | _ => .error (.attributeError (typeName d ++ " object has no attribute get"))

/-- Total companion of `projectReport` on dict items, used in theorem
statements. -/
def reportSummaryOf (d : JValue) : JValue :=
  match d with
  | .obj l => reportSummary l
  | _ => .null

/-- `list_reports(workspace_id)` with configuration and network behaviour
passed explicitly, following the source: workspace fallback and presence
check, `_get_token`, GET of the reports collection, `raise_for_status()`,
`r.json().get("value", [])`, and the projection of each item to the four
summary fields.  Returns the result and the network requests attempted. -/
def list_reports (WORKSPACE_ID : Option String) (tokenOutcome : Except PyErr String)
    (response : HttpResponse) (workspace_id : Option String := none) :
    Except PyErr (List JValue) × List HttpCall :=
  let ws := pyOrStr workspace_id WORKSPACE_ID
  if optTruthy ws = false then
    (.error (.valueError "workspace_id is required (set PBI_WORKSPACE_ID or pass explicitly)"),
      [])
  else
    match tokenOutcome with
    | .error e => (.error e, [.tokenPost])
    | .ok _ =>
      let url := API_BASE ++ "/groups/" ++ ws.getD "" ++ "/reports"
      let calls := [HttpCall.tokenPost, .httpGet url]
      if 400 ≤ response.status ∧ response.status < 600 then
        (.error (.httpError response.status), calls)
      else
        match dictGetD response.json "value" (.arr []) with
        | .error e => (.error e, calls)
        | .ok data =>
          match pyIter data with
          | .error e => (.error e, calls)
          | .ok ds =>
            match exceptMap projectReport ds with
            | .error e => (.error e, calls)
            | .ok items => (.ok items, calls)

/-- The value a dict-row cell renders to: name lookup with the empty string
as default for missing keys (and for non-string names, which never match a
string key). -/
def cellOf (row cn : JValue) : JValue :=
  match row with
  | .obj l =>
    match cn with
    | .str s => (objLookup l s).getD (.str "")
    | _ => .str ""
  | _ => .str ""

/-- Whether an optional value `isinstance(..., list)`. -/
def optIsList : Option JValue → Bool
  | some (.arr _) => true
  | _ => false

theorem dictGetD_obj (l : List (String × JValue)) (k : String) (d : JValue) :
    dictGetD (.obj l) k d = .ok (getDefault (.obj l) k d) := rfl

theorem dictGet_obj (l : List (String × JValue)) (k : String) :
    dictGet (.obj l) k = .ok (objLookup l k) := rfl

theorem pyIndex0_cons (x : JValue) (xs : List JValue) :
    pyIndex0 (.arr (x :: xs)) = .ok x := rfl

theorem pySlice_arr (l : List JValue) (n : Nat) :
    pySlice (.arr l) n = .ok (l.take n) := rfl

theorem dictGetD_of_isDict {c : JValue} (h : c.isDict = true) (k : String) (d : JValue) :
    dictGetD c k d = .ok (getDefault c k d) := by
  cases c <;> simp_all [JValue.isDict, dictGetD, dictGet, getDefault]

theorem rowCell_of_isDict_hashable {row cn : JValue} (hrow : row.isDict = true)
    (hcn : cn.hashable = true) : rowCell row cn = .ok (cellOf row cn) := by
  cases row <;> simp_all [JValue.isDict] <;> cases cn <;>
    simp_all [rowCell, cellOf, JValue.hashable]

theorem exceptMap_ok_of_forall {α β : Type} {f : α → Except PyErr β} {g : α → β}
    {l : List α} (h : ∀ x ∈ l, f x = .ok (g x)) : exceptMap f l = .ok (l.map g) := by
  induction l with
  | nil => rfl
  | cons x xs ih =>
    have hx := h x (List.mem_cons_self x xs)
    have ht := ih (fun y hy => h y (List.mem_cons_of_mem x hy))
    simp only [exceptMap, hx, ht, List.map]

theorem exceptMap_length {α β : Type} {f : α → Except PyErr β} :
    ∀ {l : List α} {l2 : List β}, exceptMap f l = .ok l2 → l2.length = l.length := by
  intro l
  induction l with
  | nil =>
    intro l2 h
    simp only [exceptMap, Except.ok.injEq] at h
    simp [← h]
  | cons x xs ih =>
    intro l2 h
    simp only [exceptMap] at h
    cases hfx : f x with
    | error e => rw [hfx] at h; exact absurd h (by simp)
    | ok y =>
      rw [hfx] at h
      cases hrest : exceptMap f xs with
      | error e => rw [hrest] at h; exact absurd h (by simp)
      | ok ys =>
        rw [hrest] at h
        simp only [Except.ok.injEq] at h
        simp [← h, ih hrest]

theorem exceptMap_cons_error {α β : Type} {f : α → Except PyErr β} {x : α}
    {xs : List α} {e : PyErr} (h : f x = .error e) :
    exceptMap f (x :: xs) = .error e := by
  simp [exceptMap, h]

theorem pySlice_length {v : JValue} {n : Nat} {l : List JValue}
    (h : pySlice v n = .ok l) : l.length ≤ n := by
  cases v with
  | arr a =>
    simp only [pySlice, Except.ok.injEq] at h
    rw [← h, List.length_take]
    exact Nat.min_le_left n a.length
  | str s =>
    simp only [pySlice, Except.ok.injEq] at h
    rw [← h, List.length_map, List.length_take]
    exact Nat.min_le_left n s.data.length
  | null => exact absurd h (by simp [pySlice])
  | bool b => exact absurd h (by simp [pySlice])
  | num m => exact absurd h (by simp [pySlice])
  | obj o => exact absurd h (by simp [pySlice])

theorem core_descriptor_csv
    (fields : List (String × JValue)) (mr : Nat)
    (ff : List (String × JValue)) (rest : List JValue)
    (tf : List (String × JValue)) (trest : List JValue)
    (cols : List JValue) (rl : List JValue)
    (hres : getDefault (.obj fields) "results" (.arr []) = .arr (.obj ff :: rest))
    (herr : ((objLookup ff "errors").getD .null).truthy = false)
    (htab : getDefault (.obj ff) "tables" (.arr []) = .arr (.obj tf :: trest))
    (hcols : objLookup tf "columns" = some (.arr cols))
    (hrows : getDefault (.obj tf) "rows" (.arr []) = .arr rl)
    (hcd : cols.all JValue.isDict = true)
    (hnames : cols.all (fun c => (getDefault c "name" (.str "")).hashable) = true)
    (hrd : (rl.take mr).all JValue.isDict = true) :
    _first_table_to_csv_core (.obj fields) mr =
      .ok (.csv
        ((cols.map (fun c => getDefault c "name" (.str ""))).map csvFieldStr)
        (((rl.take mr).map (fun row =>
          (cols.map (fun c => getDefault c "name" (.str ""))).map (cellOf row))).map
            (fun cs => cs.map csvFieldStr))) := by
  have hcd' := List.all_eq_true.mp hcd
  have hnames' := List.all_eq_true.mp hnames
  have hrd' := List.all_eq_true.mp hrd
  have hnameMap : exceptMap (fun c => dictGetD c "name" (.str "")) cols =
      .ok (cols.map (fun c => getDefault c "name" (.str ""))) :=
    exceptMap_ok_of_forall (fun c hc => dictGetD_of_isDict (hcd' c hc) _ _)
  have hcellMap : exceptMap (fun row => exceptMap (fun cn => rowCell row cn)
      (cols.map (fun c => getDefault c "name" (.str "")))) (rl.take mr) =
      .ok ((rl.take mr).map (fun row =>
        (cols.map (fun c => getDefault c "name" (.str ""))).map (cellOf row))) := by
    apply exceptMap_ok_of_forall
    intro row hrowmem
    have hinner : ∀ cn ∈ cols.map (fun c => getDefault c "name" (.str "")),
        rowCell row cn = .ok (cellOf row cn) := by
      intro cn hcnmem
      obtain ⟨c, hcmem, hceq⟩ := List.mem_map.mp hcnmem
      rw [← hceq]
      exact rowCell_of_isDict_hashable (hrd' row hrowmem) (hnames' c hcmem)
    exact exceptMap_ok_of_forall hinner
  have htr : ∀ (x : JValue) (xs : List JValue), (JValue.arr (x :: xs)).truthy = true := by
    intro x xs
    simp [JValue.truthy]
  simp [_first_table_to_csv_core, tableToCsv, dictGetD_obj, dictGet_obj, pyIndex0_cons,
    pySlice_arr, hres, herr, htab, hcols, hrows, hnameMap, hcellMap, htr]

theorem truthy_arr_cons (x : JValue) (xs : List JValue) :
    (JValue.arr (x :: xs)).truthy = true := by
  simp [JValue.truthy]

theorem pyIndex0_ok_truthy {v r : JValue} (h : pyIndex0 v = .ok r) :
    v.truthy = true := by
  cases v with
  | arr a =>
    cases a with
    | nil => exact absurd h (by simp [pyIndex0])
    | cons x xs => simp [JValue.truthy]
  | str s =>
    obtain ⟨data⟩ := s
    cases data with
    | nil => exact absurd h (by simp [pyIndex0])
    | cons c cs => simp [JValue.truthy, String.ext_iff]
  | null => exact absurd h (by simp [pyIndex0])
  | bool b => exact absurd h (by simp [pyIndex0])
  | num m => exact absurd h (by simp [pyIndex0])
  | obj o => exact absurd h (by simp [pyIndex0])

theorem core_to_table
    (fields : List (String × JValue)) (mr : Nat)
    (ff : List (String × JValue)) (rest : List JValue)
    (tbl : JValue) (trest : List JValue)
    (hres : getDefault (.obj fields) "results" (.arr []) = .arr (.obj ff :: rest))
    (herr : ((objLookup ff "errors").getD .null).truthy = false)
    (htab : getDefault (.obj ff) "tables" (.arr []) = .arr (tbl :: trest)) :
    _first_table_to_csv_core (.obj fields) mr = tableToCsv tbl mr := by
  simp [_first_table_to_csv_core, dictGetD_obj, dictGet_obj, pyIndex0_cons, hres, herr,
    htab, truthy_arr_cons]

theorem tableToCsv_notlist (tf : List (String × JValue)) (mr : Nat)
    (hcols : optIsList (objLookup tf "columns") = false) :
    tableToCsv (.obj tf) mr =
      (if (getDefault (.obj tf) "rows" (.arr [])).truthy = true then
        match pyIndex0 (getDefault (.obj tf) "rows" (.arr [])) with
        | .error e => .error e
        | .ok r0 =>
          match r0 with
          | .obj r0f =>
            match pySlice (getDefault (.obj tf) "rows" (.arr [])) mr with
            | .error e => .error e
            | .ok sliced =>
              match exceptMap (fun row =>
                  exceptMap (fun cn => rowCell row (JValue.str cn))
                    (r0f.map (fun p => p.1))) sliced with
              | .error e => .error e
              | .ok cells =>
                .ok (.csv (r0f.map (fun p => p.1))
                  (cells.map (fun cs => cs.map csvFieldStr)))
          | _ => .ok (.jsonTable (jsonDumps (.obj tf)))
      else .ok (.jsonTable (jsonDumps (.obj tf)))) := by
  rcases hc : objLookup tf "columns" with _ | v
  · simp [tableToCsv, dictGet_obj, dictGetD_obj, hc]
  · cases v
    case arr a => rw [hc] at hcols; simp [optIsList] at hcols
    all_goals simp [tableToCsv, dictGet_obj, dictGetD_obj, hc]

theorem tableToCsv_keyed
    (tf : List (String × JValue)) (mr : Nat)
    (r0f : List (String × JValue)) (rrest : List JValue)
    (hcols : optIsList (objLookup tf "columns") = false)
    (hrows : getDefault (.obj tf) "rows" (.arr []) = .arr (.obj r0f :: rrest))
    (hrd : ((JValue.obj r0f :: rrest).take mr).all JValue.isDict = true) :
    tableToCsv (.obj tf) mr =
      .ok (.csv (r0f.map (fun p => p.1))
        ((((JValue.obj r0f :: rrest).take mr).map (fun row =>
          (r0f.map (fun p => p.1)).map (fun cn => cellOf row (.str cn)))).map
            (fun cs => cs.map csvFieldStr))) := by
  have hrd' := List.all_eq_true.mp hrd
  have hcellMap : exceptMap (fun row =>
      exceptMap (fun cn => rowCell row (JValue.str cn)) (r0f.map (fun p => p.1)))
      ((JValue.obj r0f :: rrest).take mr) =
      .ok (((JValue.obj r0f :: rrest).take mr).map (fun row =>
        (r0f.map (fun p => p.1)).map (fun cn => cellOf row (.str cn)))) := by
    apply exceptMap_ok_of_forall
    intro row hrow
    exact exceptMap_ok_of_forall
      (fun cn _ => rowCell_of_isDict_hashable (hrd' row hrow) rfl)
  rw [tableToCsv_notlist tf mr hcols]
  simp [hrows, pyIndex0_cons, pySlice_arr, hcellMap, truthy_arr_cons]

theorem tableToCsv_json
    (tf : List (String × JValue)) (mr : Nat)
    (hcols : optIsList (objLookup tf "columns") = false)
    (hrows : (getDefault (.obj tf) "rows" (.arr [])).truthy = false ∨
      (∃ r0, pyIndex0 (getDefault (.obj tf) "rows" (.arr [])) = .ok r0 ∧
        r0.isDict = false)) :
    tableToCsv (.obj tf) mr = .ok (.jsonTable (jsonDumps (.obj tf))) := by
  rw [tableToCsv_notlist tf mr hcols]
  rcases hrows with hfal | ⟨r0, hidx, hnd⟩
  · simp [hfal]
  · have htru := pyIndex0_ok_truthy hidx
    cases r0 with
    | obj o => simp [JValue.isDict] at hnd
    | null => simp [htru, hidx]
    | bool b => simp [htru, hidx]
    | num m => simp [htru, hidx]
    | str s => simp [htru, hidx]
    | arr a => simp [htru, hidx]

theorem retryGo_attempts_le (attempt : Nat → Except PyErr JValue) :
    ∀ (r k : Nat), (retryGo attempt k r).2.1 ≤ k + r := by
  intro r
  induction r with
  | zero =>
    intro k
    unfold retryGo
    cases attempt k <;> simp
  | succ n ih =>
    intro k
    unfold retryGo
    cases attempt k with
    | ok v => simp
    | error e =>
      simp only
      have := ih (k + 1)
      omega

theorem retryGo_delays (attempt : Nat → Except PyErr JValue) :
    ∀ (r k : Nat) (d : Nat), d ∈ (retryGo attempt k r).2.2 →
      ∃ j, d = wait_exponential 1 1 8 j := by
  intro r
  induction r with
  | zero =>
    intro k d hd
    unfold retryGo at hd
    cases hak : attempt k <;> rw [hak] at hd <;> simp at hd
  | succ n ih =>
    intro k d hd
    unfold retryGo at hd
    cases hak : attempt k with
    | ok v => rw [hak] at hd; simp at hd
    | error e =>
      rw [hak] at hd
      simp only [List.mem_cons] at hd
      rcases hd with hd | hd
      · exact ⟨k, hd⟩
      · exact ih (k + 1) d hd

theorem wait_exponential_bounds (j : Nat) :
    1 ≤ wait_exponential 1 1 8 j ∧ wait_exponential 1 1 8 j ≤ 8 := by
  unfold wait_exponential
  simp only [one_mul]
  have h1 := Nat.two_pow_pos j
  generalize (2 : Nat) ^ j = a at h1 ⊢
  simp only [Nat.min_def, Nat.max_def]
  split_ifs <;> omega

theorem wait_exponential_doubling (j : Nat) :
    wait_exponential 1 1 8 (j + 1) = Nat.min (2 * wait_exponential 1 1 8 j) 8 := by
  unfold wait_exponential
  simp only [one_mul]
  have h2 : (2 : Nat) ^ (j + 1) = 2 * 2 ^ j := by
    rw [pow_succ, Nat.mul_comm]
  rw [h2]
  have h1 := Nat.two_pow_pos j
  generalize (2 : Nat) ^ j = a at h1 ⊢
  simp only [Nat.min_def, Nat.max_def]
  split_ifs <;> omega

/-- C1: `_get_token` makes at most 3 token-endpoint attempts, sleeping
between consecutive attempts by an exponentially doubling delay clamped to
the floor 1 and the cap 8; two transient failures followed by a success
return the access token of the third response after exactly 3 attempts and
sleeps of 2 then 4 seconds; three consecutive failures surface the last
error after exactly 3 attempts, with no fourth attempt. -/
theorem get_token_retry_policy (responses : Nat → Except PyErr HttpResponse) :
    ((_get_token responses).2.1 ≤ 3) ∧
    (∀ (e1 e2 : PyErr) (tok : JValue),
      tokenAttempt (responses 1) = .error e1 →
      tokenAttempt (responses 2) = .error e2 →
      tokenAttempt (responses 3) = .ok tok →
      _get_token responses = (.ok tok, 3, [2, 4])) ∧
    (∀ (r3 : HttpResponse) (l : List (String × JValue)) (tokv : JValue),
      responses 3 = .ok r3 → r3.status < 400 → r3.json = .obj l →
      objLookup l "access_token" = some tokv →
      tokenAttempt (responses 3) = .ok tokv) ∧
    (∀ (e1 e2 e3 : PyErr),
      tokenAttempt (responses 1) = .error e1 →
      tokenAttempt (responses 2) = .error e2 →
      tokenAttempt (responses 3) = .error e3 →
      _get_token responses = (.error e3, 3, [2, 4])) ∧
    (∀ d ∈ (_get_token responses).2.2, 1 ≤ d ∧ d ≤ 8) ∧
    (∀ j, wait_exponential 1 1 8 (j + 1) = Nat.min (2 * wait_exponential 1 1 8 j) 8) := by
  refine ⟨?_, ?_, ?_, ?_, ?_, wait_exponential_doubling⟩
  · exact retryGo_attempts_le _ 2 1
  · intro e1 e2 tok h1 h2 h3
    simp only [_get_token]
    unfold retryGo
    rw [h1]
    simp only
    unfold retryGo
    rw [h2]
    simp only
    unfold retryGo
    rw [h3]
    norm_num [wait_exponential]
  · intro r3 l tokv hr3 hst hjson hlook
    have hcond : ¬(400 ≤ r3.status ∧ r3.status < 600) := by omega
    simp [tokenAttempt, hr3, hcond, hjson, hlook]
  · intro e1 e2 e3 h1 h2 h3
    simp only [_get_token]
    unfold retryGo
    rw [h1]
    simp only
    unfold retryGo
    rw [h2]
    simp only
    unfold retryGo
    rw [h3]
    norm_num [wait_exponential]
  · intro d hd
    obtain ⟨j, hj⟩ := retryGo_delays _ 2 1 d hd
    rw [hj]
    exact wait_exponential_bounds j

/-- Witness for C1: two transient failures (a transport timeout, then a 500)
followed by a 200 carrying an access token yield that token after exactly
3 attempts with sleeps of 2 and 4. -/
theorem get_token_retry_policy_witness :
    _get_token (fun n => match n with
      | 1 => .error (.requestException "timeout")
      | 2 => .ok ⟨500, "server error", .null⟩
      | _ => .ok ⟨200, "", .obj [("access_token", .str "tok3")]⟩) =
      (.ok (.str "tok3"), 3, [2, 4]) :=
  (get_token_retry_policy _).2.1 (.requestException "timeout") (.httpError 500)
    (.str "tok3") rfl rfl rfl

theorem tableToCsv_csv_length {t : JValue} {mr : Nat} {hd : List String}
    {rows : List (List String)} (h : tableToCsv t mr = .ok (.csv hd rows)) :
    rows.length ≤ mr := by
  unfold tableToCsv at h
  repeat' split at h
  all_goals try (first
    | exact Except.noConfusion h
    | (injection h with h2; exact CsvOut.noConfusion h2))
  all_goals
    rename_i xsl sliced hsl xce cells hce
  all_goals
    simp only [Except.ok.injEq, CsvOut.csv.injEq] at h
  all_goals
    obtain ⟨h1, h2⟩ := h
  all_goals
    rw [← h2, List.length_map, exceptMap_length hce]
  all_goals
    exact pySlice_length hsl

theorem core_csv_is_table {result : JValue} {mr : Nat} {hd : List String}
    {rows : List (List String)}
    (h : _first_table_to_csv_core result mr = .ok (.csv hd rows)) :
    ∃ t, tableToCsv t mr = .ok (.csv hd rows) := by
  unfold _first_table_to_csv_core at h
  repeat' split at h
  all_goals try (first
    | exact Except.noConfusion h
    | (injection h with h2; exact CsvOut.noConfusion h2))
  exact ⟨_, h⟩

theorem csvGetValue_data_all_space {l : List (List String)} (h : ∀ r ∈ l, r = []) :
    ∀ c ∈ (csvGetValue l).data, isPySpace c = true := by
  induction l with
  | nil =>
    intro c hc
    have hdata : (csvGetValue ([] : List (List String))).data = [] := rfl
    rw [hdata] at hc
    exact absurd hc (List.not_mem_nil c)
  | cons r rs ih =>
    intro c hc
    have hr : r = [] := h r (List.mem_cons_self r rs)
    subst hr
    have hdata : (csvGetValue ([] :: rs)).data = '\r' :: '\n' :: (csvGetValue rs).data := by
      show (csvRow [] ++ csvGetValue rs).data = _
      rw [String.data_append]
      rfl
    rw [hdata] at hc
    simp only [List.mem_cons] at hc
    rcases hc with rfl | rfl | hc
    · rfl
    · rfl
    · exact ih (fun q hq => h q (List.mem_cons_of_mem _ hq)) c hc

theorem pyStrip_of_all_space {s : String} (h : ∀ c ∈ s.data, isPySpace c = true) :
    pyStrip s = "" := by
  unfold pyStrip
  have h1 : s.data.dropWhile isPySpace = [] := by
    rw [List.dropWhile_eq_nil_iff]
    exact h
  rw [h1]
  rfl

/-- C4: `generate_dax_from_nl` raises `ValueError` exactly when the model's
trimmed output does not begin, case-insensitively, with `EVALUATE`; when it
does, the call returns the dict mapping "dax" to that text, unchanged
except for the whitespace trimming.  In particular `"SELECT * FROM X"`
errors and `"EVALUATE Ledger"` is returned unchanged. -/
theorem generate_dax_validation :
    (∀ content : Option String,
      (pyStartswith (pyUpper (pyStrip (content.getD ""))) "EVALUATE" = false →
        generate_dax_from_nl content =
          .error (.valueError "Generated DAX does not start with EVALUATE.")) ∧
      (pyStartswith (pyUpper (pyStrip (content.getD ""))) "EVALUATE" = true →
        generate_dax_from_nl content = .ok [("dax", pyStrip (content.getD ""))])) ∧
    generate_dax_from_nl (some "SELECT * FROM X") =
      .error (.valueError "Generated DAX does not start with EVALUATE.") ∧
    generate_dax_from_nl (some "EVALUATE Ledger") = .ok [("dax", "EVALUATE Ledger")] := by
  refine ⟨fun content => ⟨fun h => ?_, fun h => ?_⟩, rfl, rfl⟩
  · simp [generate_dax_from_nl, h]
  · simp [generate_dax_from_nl, h]

/-- Witness for C4: a lower-case `evaluate` output passes the
case-insensitive check and is returned trimmed but otherwise unchanged. -/
theorem generate_dax_validation_witness :
    generate_dax_from_nl (some "  evaluate Ledger  ") = .ok [("dax", "evaluate Ledger")] :=
  (generate_dax_validation.1 (some "  evaluate Ledger  ")).2 rfl

/-- C9: a null model content is coerced to the empty string, fails the
EVALUATE start-keyword check, and produces the same `ValueError` as any
other non-conforming output. -/
theorem generate_dax_null_content :
    generate_dax_from_nl none =
      .error (.valueError "Generated DAX does not start with EVALUATE.") ∧
    (∀ content : Option String,
      pyStartswith (pyUpper (pyStrip (content.getD ""))) "EVALUATE" = false →
      generate_dax_from_nl content = generate_dax_from_nl none) := by
  refine ⟨rfl, fun content h => ?_⟩
  have h0 : generate_dax_from_nl none =
      .error (.valueError "Generated DAX does not start with EVALUATE.") := rfl
  rw [h0]
  simp [generate_dax_from_nl, h]

/-- Witness for C9: a non-conforming output fails exactly like the null
content. -/
theorem generate_dax_null_content_witness :
    generate_dax_from_nl (some "DAX EVALUATE") = generate_dax_from_nl none :=
  generate_dax_null_content.2 (some "DAX EVALUATE") rfl

/-- C5: with a workspace reference present but no dataset reference and no
configured default, `execute_dax_query` fails with the dataset `ValueError`
before any network call: zero HTTP requests, token acquisition included. -/
theorem execute_dax_missing_dataset
    (WORKSPACE_ID DATASET_ID : Option String) (tokenOutcome : Except PyErr String)
    (post : String → HttpResponse) (dax : String)
    (workspace_id dataset_id : Option String)
    (hws : optTruthy (pyOrStr workspace_id WORKSPACE_ID) = true)
    (hds : optTruthy (pyOrStr dataset_id DATASET_ID) = false) :
    (execute_dax_query WORKSPACE_ID DATASET_ID tokenOutcome post dax
      workspace_id dataset_id).result =
      .error (.valueError "dataset_id is required (PBI_DATASET_ID or pass explicitly)") ∧
    (execute_dax_query WORKSPACE_ID DATASET_ID tokenOutcome post dax
      workspace_id dataset_id).calls = [] := by
  constructor <;> simp [execute_dax_query, hws, hds]

/-- Witness for C5: workspace configured, dataset absent everywhere — the
dataset error is raised and no request is attempted. -/
theorem execute_dax_missing_dataset_witness :
    (execute_dax_query (some "ws1") none (.ok "tok") (fun _ => ⟨200, "", .null⟩)
      "EVALUATE T" none none).result =
      .error (.valueError "dataset_id is required (PBI_DATASET_ID or pass explicitly)") ∧
    (execute_dax_query (some "ws1") none (.ok "tok") (fun _ => ⟨200, "", .null⟩)
      "EVALUATE T" none none).calls = [] :=
  execute_dax_missing_dataset (some "ws1") none (.ok "tok") (fun _ => ⟨200, "", .null⟩)
    "EVALUATE T" none none rfl rfl

/-- Counterexample for C6: a 304 response is non-2xx, yet `execute_dax_query`
does not fail with an HTTP error — `raise_for_status()` raises only for
4xx/5xx — so the call proceeds to parse the body, returns normally, and
captures no diagnostic snippet. -/
theorem execute_dax_non2xx_counterexample :
    ¬(200 ≤ 304 ∧ 304 < 300) ∧
    (execute_dax_query (some "w") (some "d") (.ok "tok")
      (fun _ => ⟨304, "not modified", .obj [("results", .arr [])]⟩)
      "EVALUATE T" none none).result =
      .ok { raw := .obj [("results", .arr [])],
            csv_preview := jsonDumps (.obj [("results", .arr [])]) } ∧
    (execute_dax_query (some "w") (some "d") (.ok "tok")
      (fun _ => ⟨304, "not modified", .obj [("results", .arr [])]⟩)
      "EVALUATE T" none none).diagnostics = [] := by
  refine ⟨by omega, rfl, rfl⟩

/-- C6 amended: when the executeQueries POST returns a 4xx or 5xx status
(the statuses `raise_for_status()` raises for), `execute_dax_query` records
a snippet of the response body in the diagnostic metadata and fails with an
HTTP error carrying the status; the captured snippet is a prefix of the
response body of length at most 4096 (the code takes the first 4000
characters). -/
theorem execute_dax_error_capture
    (WORKSPACE_ID DATASET_ID : Option String) (dax : String)
    (workspace_id dataset_id : Option String) (tok : String)
    (status : Nat) (text : String) (body : JValue)
    (hws : optTruthy (pyOrStr workspace_id WORKSPACE_ID) = true)
    (hds : optTruthy (pyOrStr dataset_id DATASET_ID) = true)
    (h4 : 400 ≤ status) (h6 : status < 600) :
    (execute_dax_query WORKSPACE_ID DATASET_ID (.ok tok)
      (fun _ => ⟨status, text, body⟩) dax workspace_id dataset_id).result =
      .error (.httpError status) ∧
    (execute_dax_query WORKSPACE_ID DATASET_ID (.ok tok)
      (fun _ => ⟨status, text, body⟩) dax workspace_id dataset_id).diagnostics =
      [("error", "http_error"), ("response_snippet", pyTake text 4000)] ∧
    (pyTake text 4000).data ++ text.data.drop 4000 = text.data ∧
    (pyTake text 4000).length ≤ 4096 := by
  refine ⟨?_, ?_, List.take_append_drop 4000 text.data, ?_⟩
  · simp [execute_dax_query, hws, hds, h4, h6]
  · simp [execute_dax_query, hws, hds, h4, h6]
  · simp only [pyTake, String.length_mk]
    rw [List.length_take]
    omega

/-- Witness for C6 (amended): a 404 with body `"Not Found"` fails with the
HTTP error and records the whole short body as the snippet. -/
theorem execute_dax_error_capture_witness :
    (execute_dax_query none none (.ok "tok") (fun _ => ⟨404, "Not Found", .null⟩)
      "EVALUATE T" (some "w") (some "d")).result = .error (.httpError 404) ∧
    (execute_dax_query none none (.ok "tok") (fun _ => ⟨404, "Not Found", .null⟩)
      "EVALUATE T" (some "w") (some "d")).diagnostics =
      [("error", "http_error"), ("response_snippet", pyTake "Not Found" 4000)] ∧
    (pyTake "Not Found" 4000).data ++ "Not Found".data.drop 4000 = "Not Found".data ∧
    (pyTake "Not Found" 4000).length ≤ 4096 :=
  execute_dax_error_capture none none "EVALUATE T" (some "w") (some "d") "tok"
    404 "Not Found" .null rfl rfl (by omega) (by omega)

/-- C8: for every successful response whose JSON carries a `value` array of
record items, `list_reports` returns one summary per upstream item, each a
record with exactly the four fields id, name, datasetId and webUrl taken
from the corresponding item. -/
theorem list_reports_projection
    (WORKSPACE_ID workspace_id : Option String) (tok : String)
    (status : Nat) (text : String) (jf : List (String × JValue)) (vs : List JValue)
    (hws : optTruthy (pyOrStr workspace_id WORKSPACE_ID) = true)
    (h2a : 200 ≤ status) (h2b : status < 300)
    (hval : objLookup jf "value" = some (.arr vs))
    (hdict : vs.all JValue.isDict = true) :
    (list_reports WORKSPACE_ID (.ok tok) ⟨status, text, .obj jf⟩ workspace_id).1 =
      .ok (vs.map reportSummaryOf) ∧
    (vs.map reportSummaryOf).length = vs.length ∧
    (∀ item ∈ vs.map reportSummaryOf, ∃ a b c w,
      item = .obj [("id", a), ("name", b), ("datasetId", c), ("webUrl", w)]) := by
  have hdict' := List.all_eq_true.mp hdict
  have hproj : exceptMap projectReport vs = .ok (vs.map reportSummaryOf) := by
    apply exceptMap_ok_of_forall
    intro d hd
    have hdd := hdict' d hd
    cases d <;> simp_all [JValue.isDict, projectReport, reportSummaryOf]
  have hc : ¬(400 ≤ status ∧ status < 600) := by omega
  refine ⟨?_, List.length_map _ _, ?_⟩
  · simp [list_reports, hws, hc, dictGetD_obj, getDefault, hval, pyIter, hproj]
  · intro item him
    obtain ⟨d, hd, hde⟩ := List.mem_map.mp him
    have hdd := hdict' d hd
    cases d with
    | obj l =>
      exact ⟨_, _, _, _, by rw [← hde]; rfl⟩
    | null => simp [JValue.isDict] at hdd
    | bool b => simp [JValue.isDict] at hdd
    | num n => simp [JValue.isDict] at hdd
    | str s => simp [JValue.isDict] at hdd
    | arr a => simp [JValue.isDict] at hdd

/-- Witness for C8: one upstream report item is projected to its four-field
summary. -/
theorem list_reports_projection_witness :
    (list_reports (some "w") (.ok "tok")
      ⟨200, "", .obj [("value", .arr [.obj [("id", .str "r1"), ("name", .str "Sales"),
        ("datasetId", .str "ds9"), ("webUrl", .str "u"), ("extra", .num 3)]])]⟩
      none).1 =
      .ok ([JValue.obj [("id", .str "r1"), ("name", .str "Sales"),
        ("datasetId", .str "ds9"), ("webUrl", .str "u"), ("extra", .num 3)]].map
          reportSummaryOf) :=
  (list_reports_projection (some "w") none "tok" 200 ""
    [("value", .arr [.obj [("id", .str "r1"), ("name", .str "Sales"),
      ("datasetId", .str "ds9"), ("webUrl", .str "u"), ("extra", .num 3)]])]
    [.obj [("id", .str "r1"), ("name", .str "Sales"), ("datasetId", .str "ds9"),
      ("webUrl", .str "u"), ("extra", .num 3)]]
    rfl (by omega) (by omega) rfl rfl).1

/-- C2: the preview builder applies the source's ordered policy, earliest
clause first: (1) falsy per-statement results pretty-print the whole
result; (2) a truthy error payload on the first statement pretty-prints the
payload only; (3) falsy tables pretty-print the first statement; (4) a
list-typed column-descriptor field renders CSV headed by the descriptor
names in order, cells by name lookup; (5) without descriptors, keyed
records render CSV headed by the first row's key order, subsequent rows
projected the same way; (6) otherwise the raw table is pretty-printed. -/
theorem preview_policy_ordered (fields : List (String × JValue)) (mr : Nat) :
    ((getDefault (.obj fields) "results" (.arr [])).truthy = false →
      _first_table_to_csv (.obj fields) mr = .ok (jsonDumps (.obj fields))) ∧
    (∀ (ff : List (String × JValue)) (rest : List JValue),
      getDefault (.obj fields) "results" (.arr []) = .arr (.obj ff :: rest) →
      (∀ e : JValue, objLookup ff "errors" = some e → e.truthy = true →
        _first_table_to_csv (.obj fields) mr = .ok (jsonDumps e)) ∧
      (((objLookup ff "errors").getD .null).truthy = false →
        ((getDefault (.obj ff) "tables" (.arr [])).truthy = false →
          _first_table_to_csv (.obj fields) mr = .ok (jsonDumps (.obj ff))) ∧
        (∀ (tf : List (String × JValue)) (trest : List JValue),
          getDefault (.obj ff) "tables" (.arr []) = .arr (.obj tf :: trest) →
          (∀ (cols rl : List JValue),
            objLookup tf "columns" = some (.arr cols) →
            getDefault (.obj tf) "rows" (.arr []) = .arr rl →
            cols.all JValue.isDict = true →
            cols.all (fun c => (getDefault c "name" (.str "")).hashable) = true →
            (rl.take mr).all JValue.isDict = true →
            _first_table_to_csv_core (.obj fields) mr =
              .ok (.csv
                ((cols.map (fun c => getDefault c "name" (.str ""))).map csvFieldStr)
                (((rl.take mr).map (fun row =>
                  (cols.map (fun c => getDefault c "name" (.str ""))).map
                    (cellOf row))).map (fun cs => cs.map csvFieldStr)))) ∧
          (∀ (r0f : List (String × JValue)) (rrest : List JValue),
            optIsList (objLookup tf "columns") = false →
            getDefault (.obj tf) "rows" (.arr []) = .arr (.obj r0f :: rrest) →
            ((JValue.obj r0f :: rrest).take mr).all JValue.isDict = true →
            _first_table_to_csv_core (.obj fields) mr =
              .ok (.csv (r0f.map (fun p => p.1))
                ((((JValue.obj r0f :: rrest).take mr).map (fun row =>
                  (r0f.map (fun p => p.1)).map (fun cn => cellOf row (.str cn)))).map
                    (fun cs => cs.map csvFieldStr)))) ∧
          (optIsList (objLookup tf "columns") = false →
            ((getDefault (.obj tf) "rows" (.arr [])).truthy = false ∨
              (∃ r0, pyIndex0 (getDefault (.obj tf) "rows" (.arr [])) = .ok r0 ∧
                r0.isDict = false)) →
            _first_table_to_csv (.obj fields) mr = .ok (jsonDumps (.obj tf)))))) := by
  refine ⟨fun h => ?_, fun ff rest hres => ⟨fun e he htrue => ?_, fun herr =>
    ⟨fun htabf => ?_, fun tf trest htab =>
      ⟨fun cols rl hcols hrows hcd hnames hrd => ?_,
       fun r0f rrest hnl hrows hrd => ?_, fun hnl hor => ?_⟩⟩⟩⟩
  · simp [_first_table_to_csv, _first_table_to_csv_core, dictGetD_obj, h]
  · simp [_first_table_to_csv, _first_table_to_csv_core, dictGetD_obj, dictGet_obj,
      pyIndex0_cons, hres, he, htrue, truthy_arr_cons]
  · simp [_first_table_to_csv, _first_table_to_csv_core, dictGetD_obj, dictGet_obj,
      pyIndex0_cons, hres, herr, htabf, truthy_arr_cons]
  · exact core_descriptor_csv fields mr ff rest tf trest cols rl hres herr htab
      hcols hrows hcd hnames hrd
  · rw [core_to_table fields mr ff rest (.obj tf) trest hres herr htab]
    exact tableToCsv_keyed tf mr r0f rrest hnl hrows hrd
  · have hc := core_to_table fields mr ff rest (.obj tf) trest hres herr htab
    have hj := tableToCsv_json tf mr hnl hor
    simp [_first_table_to_csv, hc, hj]

/-- Witness for C2: a two-descriptor table with keyed rows takes the
descriptor clause; the second row's missing "b" key renders as the empty
string. -/
theorem preview_policy_ordered_witness :
    _first_table_to_csv_core (.obj [("results", .arr [.obj [("tables", .arr [.obj
      [("columns", .arr [.obj [("name", .str "a")], .obj [("name", .str "b")]]),
       ("rows", .arr [.obj [("a", .str "v1"), ("b", .str "x,y")],
         .obj [("a", .str "v2")]])]])]])]) 50 =
      .ok (.csv ["a", "b"] [["v1", "x,y"], ["v2", ""]]) := by
  have h := ((((preview_policy_ordered [("results", .arr [.obj [("tables", .arr [.obj
      [("columns", .arr [.obj [("name", .str "a")], .obj [("name", .str "b")]]),
       ("rows", .arr [.obj [("a", .str "v1"), ("b", .str "x,y")],
         .obj [("a", .str "v2")]])]])]])] 50).2
    [("tables", .arr [.obj
      [("columns", .arr [.obj [("name", .str "a")], .obj [("name", .str "b")]]),
       ("rows", .arr [.obj [("a", .str "v1"), ("b", .str "x,y")],
         .obj [("a", .str "v2")]])]])] [] rfl).2 rfl).2
    [("columns", .arr [.obj [("name", .str "a")], .obj [("name", .str "b")]]),
     ("rows", .arr [.obj [("a", .str "v1"), ("b", .str "x,y")],
       .obj [("a", .str "v2")]])]
    [] rfl).1
    [.obj [("name", .str "a")], .obj [("name", .str "b")]]
    [.obj [("a", .str "v1"), ("b", .str "x,y")], .obj [("a", .str "v2")]]
    rfl rfl rfl rfl rfl
  rw [h]
  decide

/-- C3: the preview's default row budget is 50; whenever the builder reaches
a CSV return, it renders at most `max_rows` data rows; and a well-shaped
descriptor table with exactly `max_rows + 5` rows yields exactly `max_rows`
data rows beside the header. -/
theorem preview_row_bound (result : JValue) (mr : Nat) :
    (_first_table_to_csv result = _first_table_to_csv result 50) ∧
    (∀ (hd : List String) (rows : List (List String)),
      _first_table_to_csv_core result mr = .ok (.csv hd rows) → rows.length ≤ mr) ∧
    (∀ (fields ff tf : List (String × JValue)) (rest trest : List JValue)
        (cols rl : List JValue),
      getDefault (.obj fields) "results" (.arr []) = .arr (.obj ff :: rest) →
      ((objLookup ff "errors").getD .null).truthy = false →
      getDefault (.obj ff) "tables" (.arr []) = .arr (.obj tf :: trest) →
      objLookup tf "columns" = some (.arr cols) →
      getDefault (.obj tf) "rows" (.arr []) = .arr rl →
      cols.all JValue.isDict = true →
      cols.all (fun c => (getDefault c "name" (.str "")).hashable) = true →
      (rl.take mr).all JValue.isDict = true →
      rl.length = mr + 5 →
      ∃ hd rows, _first_table_to_csv_core (.obj fields) mr = .ok (.csv hd rows) ∧
        rows.length = mr) := by
  refine ⟨rfl, fun hd rows h => ?_, ?_⟩
  · obtain ⟨t, ht⟩ := core_csv_is_table h
    exact tableToCsv_csv_length ht
  · intro fields ff tf rest trest cols rl hres herr htab hcols hrows hcd hnames hrd hlen
    refine ⟨_, _, core_descriptor_csv fields mr ff rest tf trest cols rl hres herr htab
      hcols hrows hcd hnames hrd, ?_⟩
    simp only [List.length_map, List.length_take]
    omega

/-- Witness for C3: a one-column table with 7 rows and a 2-row budget renders
exactly 2 data rows. -/
theorem preview_row_bound_witness :
    ∃ hd rows, _first_table_to_csv_core (.obj [("results", .arr [.obj [("tables",
      .arr [.obj [("columns", .arr [.obj [("name", .str "a")]]), ("rows", .arr
      [.obj [], .obj [], .obj [], .obj [], .obj [], .obj [], .obj []])]])]])]) 2 =
      .ok (.csv hd rows) ∧ rows.length = 2 :=
  (preview_row_bound .null 2).2.2
    [("results", .arr [.obj [("tables", .arr [.obj [("columns", .arr
      [.obj [("name", .str "a")]]), ("rows", .arr [.obj [], .obj [], .obj [],
      .obj [], .obj [], .obj [], .obj []])]])]])]
    [("tables", .arr [.obj [("columns", .arr [.obj [("name", .str "a")]]),
      ("rows", .arr [.obj [], .obj [], .obj [], .obj [], .obj [], .obj [],
      .obj []])]])]
    [("columns", .arr [.obj [("name", .str "a")]]), ("rows", .arr [.obj [],
      .obj [], .obj [], .obj [], .obj [], .obj [], .obj []])]
    [] [] [.obj [("name", .str "a")]]
    [.obj [], .obj [], .obj [], .obj [], .obj [], .obj [], .obj []]
    rfl rfl rfl rfl rfl rfl rfl rfl rfl

/-- Counterexample for C7: in the descriptor branch a positional (list-shaped)
row is not rendered by name lookup — `row.get` raises `AttributeError`, so
the preview raises instead of returning text. -/
theorem preview_positional_row_counterexample :
    _first_table_to_csv (.obj [("results", .arr [.obj [("tables", .arr [.obj
      [("columns", .arr [.obj [("name", .str "a")]]),
       ("rows", .arr [.arr [.str "x"]])]])]])]) 50 =
      .error (.attributeError "list object has no attribute get") := rfl

/-- C7 amended: in the descriptor branch, rendering is total over dict-shaped
rows — each cell is the name lookup of the column name with missing keys
rendered as the empty string — but a positional (list-shaped) row raises
`AttributeError` as soon as at least one column name is looked up. -/
theorem descriptor_branch_row_shape
    (fields ff tf : List (String × JValue)) (rest trest : List JValue)
    (cols rl : List JValue) (mr : Nat)
    (hres : getDefault (.obj fields) "results" (.arr []) = .arr (.obj ff :: rest))
    (herr : ((objLookup ff "errors").getD .null).truthy = false)
    (htab : getDefault (.obj ff) "tables" (.arr []) = .arr (.obj tf :: trest))
    (hcols : objLookup tf "columns" = some (.arr cols))
    (hrows : getDefault (.obj tf) "rows" (.arr []) = .arr rl)
    (hcd : cols.all JValue.isDict = true)
    (hnames : cols.all (fun c => (getDefault c "name" (.str "")).hashable) = true) :
    ((rl.take mr).all JValue.isDict = true →
      _first_table_to_csv_core (.obj fields) mr =
        .ok (.csv ((cols.map (fun c => getDefault c "name" (.str ""))).map csvFieldStr)
          (((rl.take mr).map (fun row =>
            (cols.map (fun c => getDefault c "name" (.str ""))).map (cellOf row))).map
              (fun cs => cs.map csvFieldStr)))) ∧
    (∀ (c0 : JValue) (crest : List JValue) (r0 rrest : List JValue),
      cols = c0 :: crest →
      rl.take mr = .arr r0 :: rrest →
      _first_table_to_csv_core (.obj fields) mr =
        .error (.attributeError "list object has no attribute get")) := by
  constructor
  · intro hrd
    exact core_descriptor_csv fields mr ff rest tf trest cols rl hres herr htab
      hcols hrows hcd hnames hrd
  · intro c0 crest r0 rrest hcc hsl
    rw [core_to_table fields mr ff rest (.obj tf) trest hres herr htab]
    have hnameMap : exceptMap (fun c => dictGetD c "name" (.str "")) cols =
        .ok (cols.map (fun c => getDefault c "name" (.str ""))) :=
      exceptMap_ok_of_forall (fun c hc =>
        dictGetD_of_isDict (List.all_eq_true.mp hcd c hc) _ _)
    subst hcc
    have hinner : exceptMap (fun cn => rowCell (JValue.arr r0) cn)
        ((c0 :: crest).map (fun c => getDefault c "name" (.str ""))) =
        .error (.attributeError "list object has no attribute get") :=
      exceptMap_cons_error rfl
    have hcellsErr : exceptMap (fun row => exceptMap (fun cn => rowCell row cn)
        ((c0 :: crest).map (fun c => getDefault c "name" (.str ""))))
        (JValue.arr r0 :: rrest) =
        .error (.attributeError "list object has no attribute get") :=
      exceptMap_cons_error hinner
    simp only [tableToCsv, dictGet_obj, dictGetD_obj, hcols, hrows, hnameMap,
      pySlice_arr, hsl, hcellsErr]

/-- Witness for C7 (amended): one descriptor and one positional row raise the
attribute error. -/
theorem descriptor_branch_row_shape_witness :
    _first_table_to_csv_core (.obj [("results", .arr [.obj [("tables", .arr [.obj
      [("columns", .arr [.obj [("name", .str "c")]]),
       ("rows", .arr [.arr [.num 7]])]])]])]) 50 =
      .error (.attributeError "list object has no attribute get") :=
  (descriptor_branch_row_shape
    [("results", .arr [.obj [("tables", .arr [.obj
      [("columns", .arr [.obj [("name", .str "c")]]),
       ("rows", .arr [.arr [.num 7]])]])]])]
    [("tables", .arr [.obj [("columns", .arr [.obj [("name", .str "c")]]),
      ("rows", .arr [.arr [.num 7]])]])]
    [("columns", .arr [.obj [("name", .str "c")]]), ("rows", .arr [.arr [.num 7]])]
    [] [] [.obj [("name", .str "c")]] [.arr [.num 7]] 50
    rfl rfl rfl rfl rfl rfl rfl).2
    (.obj [("name", .str "c")]) [] [.num 7] [] rfl rfl

/-- C10: a present-but-empty column-descriptor list takes the descriptor
branch (never the keyed-row or raw-JSON fallbacks), writes an empty header
row and one empty line per retained row, and the stripped preview is the
empty string — for any list of rows of any shape. -/
theorem empty_descriptor_preview
    (tf : List (String × JValue)) (rl : List JValue) (mr : Nat)
    (hcols : objLookup tf "columns" = some (.arr []))
    (hrows : getDefault (.obj tf) "rows" (.arr []) = .arr rl) :
    _first_table_to_csv_core
      (.obj [("results", .arr [.obj [("tables", .arr [.obj tf])]])]) mr =
      .ok (.csv [] ((rl.take mr).map (fun _ => []))) ∧
    _first_table_to_csv
      (.obj [("results", .arr [.obj [("tables", .arr [.obj tf])]])]) mr = .ok "" := by
  have hcore : _first_table_to_csv_core
      (.obj [("results", .arr [.obj [("tables", .arr [.obj tf])]])]) mr =
      tableToCsv (.obj tf) mr :=
    core_to_table _ mr _ [] _ [] rfl rfl rfl
  have hcells : exceptMap (fun row => exceptMap (fun cn => rowCell row cn)
      ([] : List JValue)) (rl.take mr) =
      .ok ((rl.take mr).map (fun _ => ([] : List JValue))) :=
    exceptMap_ok_of_forall (fun row _ => rfl)
  have hnames0 : exceptMap (fun c => dictGetD c "name" (.str ""))
      ([] : List JValue) = .ok [] := rfl
  have htbl : tableToCsv (.obj tf) mr =
      .ok (.csv [] ((rl.take mr).map (fun _ => []))) := by
    simp only [tableToCsv, dictGet_obj, dictGetD_obj, hcols, hrows, pySlice_arr,
      List.map_nil, hnames0, hcells]
    simp
  have hmain := hcore.trans htbl
  refine ⟨hmain, ?_⟩
  have hnil : ∀ r ∈ ([] : List String) :: (rl.take mr).map
      (fun _ => ([] : List String)), r = [] := by
    intro r hr
    rcases List.mem_cons.mp hr with rfl | hr
    · rfl
    · obtain ⟨_, _, hre⟩ := List.mem_map.mp hr
      exact hre.symm
  have hstrip := pyStrip_of_all_space (csvGetValue_data_all_space hnil)
  have hfin : _first_table_to_csv
      (.obj [("results", .arr [.obj [("tables", .arr [.obj tf])]])]) mr =
      .ok (pyStrip (csvGetValue (([] : List String) ::
        (rl.take mr).map (fun _ => [])))) := by
    simp only [_first_table_to_csv, hmain]
  rw [hfin, hstrip]

/-- Witness for C10: empty descriptors with positional and scalar rows yield
the empty preview. -/
theorem empty_descriptor_preview_witness :
    _first_table_to_csv (.obj [("results", .arr [.obj [("tables", .arr [.obj
      [("columns", .arr []),
       ("rows", .arr [.arr [.num 1], .str "zz", .null])]])]])]) 3 = .ok "" :=
  (empty_descriptor_preview
    [("columns", .arr []), ("rows", .arr [.arr [.num 1], .str "zz", .null])]
    [.arr [.num 1], .str "zz", .null] 3 rfl rfl).2
